import Mathlib

/-!
# RPC Outcome Normalizer — verification of `test.py` / `gemtest.py`

Shallow embedding of the request/response normalization and outcome
classification layer of the Foodtrace test scripts: the `_req` transport
call, the `invoke` / `query` invocation wrappers, and the `ok` outcome
classifier, as implemented in `src/test.py` and (with its variations)
`src/gemtest.py`.

Python values flowing through this layer are JSON-shaped; they are
modelled by `JsonVal`.  A Python dict produced by `_req` is modelled as
an insertion-ordered association list (`Record`).  Keys are `PyKey`
(the hashable JSON scalars) because the merge step
`out.update(json.loads(body))` can install non-string keys when the
decoded body is a sequence of pairs.  Python expressions that can raise
(`x in y` on a non-container, `.lower()` on a non-string, `dict.update`
on a non-mapping) are modelled in the `Except String` monad, with the
`except` handlers of the source reflected exactly where the source
catches them.
-/

set_option autoImplicit false

/-- JSON-shaped Python value: `None`, `bool`, `int`, `str`, `list`, `dict`.
(Float literals are not produced by any input considered here.) -/
inductive JsonVal where
  | null
  | bool (b : Bool)
  | num (n : Int)
  | str (s : String)
  | arr (elems : List JsonVal)
  | obj (fields : List (String × JsonVal))

/-- A hashable Python dict key (the JSON scalars).  Lists and dicts are
unhashable and can never be installed as keys. -/
inductive PyKey where
  | null
  | bool (b : Bool)
  | num (n : Int)
  | str (s : String)
deriving DecidableEq

/-- A Python dict as the source uses it: insertion-ordered key/value pairs. -/
abbrev Record := List (PyKey × JsonVal)

/-- `d.get(k)`: binding of the key, if present. -/
def pyGet : Record → PyKey → Option JsonVal
  | [], _ => none
  | (k', v) :: rest, k => if k' = k then some v else pyGet rest k

/-- `d.get("s")` for a string key. -/
def pyGetS (r : Record) (k : String) : Option JsonVal :=
  pyGet r (PyKey.str k)

/-- `d[k] = v`: overwrite the existing binding in place, else append. -/
def pySet : Record → PyKey → JsonVal → Record
  | [], k, v => [(k, v)]
  | (k', v') :: rest, k, v =>
    if k' = k then (k, v) :: rest else (k', v') :: pySet rest k v

/-- Python truthiness of a value. -/
def pyTruthy : JsonVal → Bool
  | .null => false
  | .bool b => b
  | .num n => decide (n ≠ 0)
  | .str s => decide (s ≠ "")
  | .arr xs => !xs.isEmpty
  | .obj fs => !fs.isEmpty

/-- Truthiness of `d.get(k)` (missing key → `None` → falsy). -/
def optTruthy : Option JsonVal → Bool
  | none => false
  | some v => pyTruthy v

/-- Python `a or b`: `a` if truthy, else `b`. -/
def pyOr (a b : JsonVal) : JsonVal :=
  if pyTruthy a then a else b

/-- `needle in hay` for strings: substring test. -/
def strContains (hay pat : String) : Bool :=
  let h := hay.toList
  let p := pat.toList
  (List.range (h.length + 1)).any (fun i => decide ((h.drop i).take p.length = p))

/-- `s.upper()` (ASCII, as exercised by the sources). -/
def pyUpper (s : String) : String :=
  String.mk (s.toList.map Char.toUpper)

/-- `s.lower()` (ASCII, as exercised by the sources). -/
def pyLower (s : String) : String :=
  String.mk (s.toList.map Char.toLower)

/-- The whitespace stripped by Python `str.strip()`. -/
def isPySpace (c : Char) : Bool :=
  c = ' ' || c = '\t' || c = '\n' || c = '\r' || c = Char.ofNat 11 || c = Char.ofNat 12

/-- `s.strip()`. -/
def pyStrip (s : String) : String :=
  String.mk (((s.toList.dropWhile isPySpace).reverse.dropWhile isPySpace).reverse)

example : pyStrip "  \t\n " = "" := by decide
example : strContains "abcdef" "cde" = true := by decide
example : strContains "abcdef" "gcd" = false := by decide
example : pyUpper "vAlid" = "VALID" := by decide

/-! ## `json.loads`

A fuel-based recursive-descent parser for the JSON fragment the scripts
exchange (null / booleans / integers / strings / arrays / objects;
numbers with a fraction or exponent are rejected, so documents the
model accepts are a subset of those `json.loads` accepts).  `none`
models `json.JSONDecodeError`. -/

/-- JSON insignificant whitespace. -/
def isJsonWs (c : Char) : Bool :=
  c = ' ' || c = '\t' || c = '\n' || c = '\r'

def skipWs : List Char → List Char
  | [] => []
  | c :: rest => if isJsonWs c then skipWs rest else c :: rest

/-- Strip an expected literal from the front of the input. -/
def litRest : List Char → List Char → Option (List Char)
  | [], cs => some cs
  | _ :: _, [] => none
  | l :: ls, c :: cs => if c = l then litRest ls cs else none

/-- Parse the tail of a JSON string (opening quote already consumed),
returning the decoded characters and the rest of the input. -/
def parseStrAux : Nat → List Char → Option (List Char × List Char)
  | 0, _ => none
  | _, [] => none
  | fuel + 1, c :: rest =>
    if c = '"' then some ([], rest)
    else if c = '\\' then
      match rest with
      | [] => none
      | e :: rest2 =>
        let ec : Option Char :=
          if e = '"' then some '"'
          else if e = '\\' then some '\\'
          else if e = '/' then some '/'
          else if e = 'n' then some '\n'
          else if e = 't' then some '\t'
          else if e = 'r' then some '\r'
          else if e = 'b' then some (Char.ofNat 8)
          else if e = 'f' then some (Char.ofNat 12)
          else none
        match ec with
        | none => none
        | some d =>
          match parseStrAux fuel rest2 with
          | none => none
          | some (s, rem) => some (d :: s, rem)
    else if c.toNat < 32 then none
    else
      match parseStrAux fuel rest with
      | none => none
      | some (s, rem) => some (c :: s, rem)

def digitsVal (ds : List Char) : Nat :=
  ds.foldl (fun acc c => acc * 10 + (c.toNat - 48)) 0

/-- Parse a JSON integer (sign and digit run; leading zeros and
fraction/exponent continuations make the surrounding document fail). -/
def parseNum (cs : List Char) : Option (JsonVal × List Char) :=
  let neg := match cs with | '-' :: _ => true | _ => false
  let cs1 := match cs with | '-' :: r => r | _ => cs
  let ds := cs1.takeWhile Char.isDigit
  let rest := cs1.dropWhile Char.isDigit
  if ds.isEmpty then none
  else if ds.length > 1 && ds.headD '0' = '0' then none
  else
    let n : Int := Int.ofNat (digitsVal ds)
    some (JsonVal.num (if neg then -n else n), rest)

/-- Re-binding a key already present keeps its position and replaces its
value, as successive `d[k] = v` assignments do while `json.loads`
builds an object. -/
def objSet : List (String × JsonVal) → String → JsonVal → List (String × JsonVal)
  | [], k, v => [(k, v)]
  | (k', v') :: rest, k, v =>
    if k' = k then (k, v) :: rest else (k', v') :: objSet rest k v

def dedupFields (fs : List (String × JsonVal)) : List (String × JsonVal) :=
  fs.foldl (fun acc kv => objSet acc kv.1 kv.2) []

mutual

def parseVal : Nat → List Char → Option (JsonVal × List Char)
  | 0, _ => none
  | fuel + 1, cs =>
    match skipWs cs with
    | [] => none
    | c :: rest =>
      if c = 'n' then
        match litRest ['u', 'l', 'l'] rest with
        | some rem => some (JsonVal.null, rem)
        | none => none
      else if c = 't' then
        match litRest ['r', 'u', 'e'] rest with
        | some rem => some (JsonVal.bool true, rem)
        | none => none
      else if c = 'f' then
        match litRest ['a', 'l', 's', 'e'] rest with
        | some rem => some (JsonVal.bool false, rem)
        | none => none
      else if c = '"' then
        match parseStrAux fuel rest with
        | some (s, rem) => some (JsonVal.str (String.mk s), rem)
        | none => none
      else if c = '[' then
        match skipWs rest with
        | ']' :: rem => some (JsonVal.arr [], rem)
        | cs2 =>
          match parseElems fuel cs2 with
          | some (vs, rem) => some (JsonVal.arr vs, rem)
          | none => none
      else if c = '{' then
        match skipWs rest with
        | '}' :: rem => some (JsonVal.obj [], rem)
        | cs2 =>
          match parseFields fuel cs2 with
          | some (fs, rem) => some (JsonVal.obj (dedupFields fs), rem)
          | none => none
      else if c = '-' || c.isDigit then parseNum (c :: rest)
      else none

def parseElems : Nat → List Char → Option (List JsonVal × List Char)
  | 0, _ => none
  | fuel + 1, cs =>
    match parseVal fuel cs with
    | none => none
    | some (v, rem) =>
      match skipWs rem with
      | ',' :: rem2 =>
        match parseElems fuel rem2 with
        | some (vs, rem3) => some (v :: vs, rem3)
        | none => none
      | ']' :: rem2 => some ([v], rem2)
      | _ => none

def parseFields : Nat → List Char → Option (List (String × JsonVal) × List Char)
  | 0, _ => none
  | fuel + 1, cs =>
    match skipWs cs with
    | '"' :: rest =>
      match parseStrAux fuel rest with
      | none => none
      | some (k, rem) =>
        match skipWs rem with
        | ':' :: rem2 =>
          match parseVal fuel rem2 with
          | none => none
          | some (v, rem3) =>
            match skipWs rem3 with
            | ',' :: rem4 =>
              match parseFields fuel rem4 with
              | some (fs, rem5) => some ((String.mk k, v) :: fs, rem5)
              | none => none
            | '}' :: rem4 => some ([(String.mk k, v)], rem4)
            | _ => none
        | _ => none
    | _ => none

end

/-- `json.loads`: parse a complete document, allowing trailing
whitespace only. -/
def json_loads (s : String) : Option JsonVal :=
  match parseVal (2 * s.length + 4) (skipWs s.toList) with
  | some (v, rem) => if (skipWs rem).isEmpty then some v else none
  | none => none

example : json_loads "null" = some JsonVal.null := by rfl
example : json_loads " -42 " = some (JsonVal.num (-42)) := by rfl
example : json_loads "[1, 2]" = some (JsonVal.arr [JsonVal.num 1, JsonVal.num 2]) := by rfl
example : json_loads "\"a\\nb\"" = some (JsonVal.str "a\nb") := by rfl
example :
    json_loads "\x7b\"a\": 1, \"b\": [true, null]\x7d" =
      some (JsonVal.obj [("a", JsonVal.num 1), ("b", JsonVal.arr [JsonVal.bool true, JsonVal.null])]) := by
  rfl
example : json_loads "not json" = none := by rfl
example : json_loads "" = none := by rfl
example : json_loads "\x7b\"a\": 1\x7d tail" = none := by rfl
example : json_loads "01" = none := by rfl

/-! ## `dict.update` and the transport call `_req`

`_req` (identical in `src/test.py` lines 56-83 and `src/gemtest.py`
lines 64-89) performs one HTTP request and normalizes every outcome
into a `Record`.  The possible outcomes of `urllib.request.urlopen`
are modelled by `HttpOutcome`:
* `success code body` — a response object (2xx/3xx), body already read
  and decoded;
* `httpError code raw` — `urllib.error.HTTPError` raised, error body
  `raw` (the `e.fp` absent case is `raw = ""`);
* `failure exc` — any other exception (connection refused, timeout,
  ...), with `str(exc) = exc`. -/

/-- A decoded JSON value viewed as a dict key, when hashable. -/
def toKey : JsonVal → Option PyKey
  | .null => some PyKey.null
  | .bool b => some (PyKey.bool b)
  | .num n => some (PyKey.num n)
  | .str s => some (PyKey.str s)
  | .arr _ => none
  | .obj _ => none

/-- One element of `dict.update(seq)`: CPython views the element as a
sequence of exactly two items (a 2-element list, a 2-character string,
or a 2-key dict — iterating a dict yields its keys); anything else
raises. -/
def seqPair (i : Nat) : JsonVal → Except String (PyKey × JsonVal)
  | .arr [k, v] =>
    match toKey k with
    | some key => Except.ok (key, v)
    | none => Except.error ("unhashable type in update sequence element #" ++ toString i)
  | .arr xs =>
    Except.error ("dictionary update sequence element #" ++ toString i ++
      " has length " ++ toString xs.length ++ "; 2 is required")
  | .str s =>
    match s.toList with
    | [a, b] => Except.ok (PyKey.str (String.mk [a]), JsonVal.str (String.mk [b]))
    | cs =>
      Except.error ("dictionary update sequence element #" ++ toString i ++
        " has length " ++ toString cs.length ++ "; 2 is required")
  | .obj [(k1, _), (k2, _)] => Except.ok (PyKey.str k1, JsonVal.str k2)
  | .obj fs =>
    Except.error ("dictionary update sequence element #" ++ toString i ++
      " has length " ++ toString fs.length ++ "; 2 is required")
  | _ =>
    Except.error ("cannot convert dictionary update sequence element #" ++
      toString i ++ " to a sequence")

def updateSeq : Record → Nat → List JsonVal → Except String Record
  | r, _, [] => Except.ok r
  | r, i, e :: rest =>
    match seqPair i e with
    | Except.error m => Except.error m
    | Except.ok (k, v) => updateSeq (pySet r k v) (i + 1) rest

/-- Merging a decoded object into the record. -/
def objFoldSet (r : Record) (fs : List (String × JsonVal)) : Record :=
  fs.foldl (fun acc kv => pySet acc (PyKey.str kv.1) kv.2) r

/-- `d.update(v)` for a decoded JSON value `v`: an object merges
key-wise; a list must be a sequence of pairs; a string iterates to its
characters (so only `""` succeeds); scalars are not iterable. -/
def dictUpdate (r : Record) : JsonVal → Except String Record
  | .obj fs => Except.ok (objFoldSet r fs)
  | .arr xs => updateSeq r 0 xs
  | .str s =>
    if s = "" then Except.ok r
    else Except.error "dictionary update sequence element #0 has length 1; 2 is required"
  | .num _ => Except.error "'int' object is not iterable"
  | .bool _ => Except.error "'bool' object is not iterable"
  | .null => Except.error "'NoneType' object is not iterable"

/-- The three ways the HTTP round trip inside `_req` can come back. -/
inductive HttpOutcome where
  | success (code : Int) (body : String)
  | httpError (code : Int) (raw : String)
  | failure (exc : String)

/-- `_req` (src/test.py:56-83, src/gemtest.py:64-89), as a function of
the transport outcome.  On success the record starts as
`{"status": code}`; a non-empty body is JSON-decoded and merged with
`out.update(...)`; `json.JSONDecodeError` stores the raw body instead,
while a failing merge is caught by the generic `except Exception`
handler and yields the 500-sentinel record.  On `HTTPError` the error
body is parsed only if it is non-empty, contains a brace and does not
look like HTML.  On any other exception the 500-sentinel record is
returned. -/
def _req : HttpOutcome → Record
  | .success code body =>
    let out : Record := [(PyKey.str "status", JsonVal.num code)]
    if body = "" then out
    else
      match json_loads body with
      | none => pySet out (PyKey.str "raw") (JsonVal.str body)
      | some v =>
        match dictUpdate out v with
        | Except.ok merged => merged
        | Except.error msg => [(PyKey.str "err", JsonVal.str msg), (PyKey.str "status", JsonVal.num 500)]
  | .httpError code raw =>
    let details : JsonVal :=
      if raw ≠ "" ∧ strContains raw "<html" = false ∧ strContains raw "\x7b" = true then
        match json_loads raw with
        | some v => v
        | none => JsonVal.obj [("raw", JsonVal.str raw), ("note", JsonVal.str "Response could not be parsed as JSON.")]
      else JsonVal.obj [("raw", JsonVal.str raw), ("note", JsonVal.str "Response not valid JSON or HTML.")]
    [(PyKey.str "err", JsonVal.str ("HTTP " ++ toString code)),
     (PyKey.str "details", details),
     (PyKey.str "status", JsonVal.num code)]
  | .failure exc => [(PyKey.str "err", JsonVal.str exc), (PyKey.str "status", JsonVal.num 500)]

example :
    _req (HttpOutcome.success 200 "\x7b\"result\": \"ok\"\x7d") =
      [(PyKey.str "status", JsonVal.num 200), (PyKey.str "result", JsonVal.str "ok")] := by
  rfl
example :
    _req (HttpOutcome.success 200 "oops") =
      [(PyKey.str "status", JsonVal.num 200), (PyKey.str "raw", JsonVal.str "oops")] := by
  rfl
example :
    _req (HttpOutcome.success 200 "7") =
      [(PyKey.str "err", JsonVal.str "'int' object is not iterable"),
       (PyKey.str "status", JsonVal.num 500)] := by
  rfl

/-! ## The outcome classifiers `ok`

`src/test.py` (lines 239-286) and `src/gemtest.py` (lines 245-289) each
define an `ok(r, expected_status_codes=None)` reading the module-global
`method_type`; the global is an explicit `Mode` argument here.  The two
bodies differ in the query-200 branch and in the fall-through branch,
so both are embedded, in namespaces `testpy` and `gemtest`. -/

/-- The process-wide `method_type` flag. -/
inductive Mode where
  | invoke
  | query
deriving DecidableEq

/-- `d.get(k, "")`-style lookup in a decoded JSON object. -/
def objGetD (fs : List (String × JsonVal)) (k : String) (d : JsonVal) : JsonVal :=
  match fs.find? (fun kv => kv.1 == k) with
  | some kv => kv.2
  | none => d

/-- `k in d` for a decoded JSON object. -/
def objHas (fs : List (String × JsonVal)) (k : String) : Bool :=
  (fs.find? (fun kv => kv.1 == k)).isSome

/-- `isinstance(status, str) and status.upper() == "VALID"`. -/
def statusValidStr : Option JsonVal → Bool
  | some (.str s) => pyUpper s == "VALID"
  | _ => false

/-- `isinstance(status, int) and status in expected_status_codes`
(Python `bool` is a subtype of `int`, with `True == 1`). -/
def statusIntIn : Option JsonVal → List Int → Bool
  | some (.num n), expected => expected.contains n
  | some (.bool b), expected => expected.contains (if b then 1 else 0)
  | _, _ => false

/-- `status == n` for an integer literal `n`. -/
def statusEqInt : Option JsonVal → Int → Bool
  | some (.num m), n => m == n
  | some (.bool b), n => (if b then (1 : Int) else 0) == n
  | _, _ => false

/-- Python `needle in v` for a string needle: substring test on strings,
membership on lists (string-vs-element equality) and on dict keys;
raises `TypeError` on scalars. -/
def pyInStr (needle : String) : JsonVal → Except String Bool
  | .str s => Except.ok (strContains s needle)
  | .arr xs =>
    Except.ok (xs.any (fun e => match e with | .str s => s == needle | _ => false))
  | .obj fs => Except.ok (objHas fs needle)
  | _ => Except.error "argument of type is not iterable"

/-- `v.lower()`: defined on strings, raises `AttributeError` otherwise. -/
def pyLowerEx : JsonVal → Except String String
  | .str s => Except.ok (pyLower s)
  | _ => Except.error "object has no attribute lower"

/-- The shared marker scan on a details dict:
`error_msg = details.get("error", "") or details.get("message", "")`
followed by
`"Description: " in error_msg or "chaincode response" in error_msg.lower()`
(the second disjunct is only evaluated when the first is false, as in
Python's short-circuit `or`). -/
def detailsMarker (fs : List (String × JsonVal)) : Except String Bool := do
  let em := pyOr (objGetD fs "error" (JsonVal.str "")) (objGetD fs "message" (JsonVal.str ""))
  let b1 ← pyInStr "Description: " em
  if b1 then pure true
  else do
    let low ← pyLowerEx em
    pure (strContains low "chaincode response")

namespace testpy

/-- The tail of `ok` in src/test.py (lines 279-286): one more marker
scan over `details` — evaluated for its logging (and its possible
`TypeError`) only — then `return False`. -/
def okFall (r : Record) : Except String Bool :=
  match pyGetS r "details" with
  | some (JsonVal.obj fs) =>
    if fs.isEmpty then Except.ok false
    else
      match detailsMarker fs with
      | Except.error e => Except.error e
      | Except.ok _ => Except.ok false
  | _ => Except.ok false

/-- `ok` from src/test.py (lines 239-286).  `codes = none` models the
`expected_status_codes=None` default. -/
def ok (mt : Mode) (r : Record) (codes : Option (List Int)) : Except String Bool :=
  let expected := codes.getD (if mt = Mode.invoke then [202] else [200])
  let status := pyGetS r "status"
  if mt = Mode.invoke ∧ statusValidStr status = true then Except.ok true
  else if statusIntIn status expected = true then
    if mt = Mode.query ∧ statusEqInt status 200 = true then
      match pyGetS r "details" with
      | some (JsonVal.obj fs) =>
        if fs.isEmpty then Except.ok true
        else
          match detailsMarker fs with
          | Except.error e => Except.error e
          | Except.ok true => Except.ok false
          | Except.ok false => Except.ok true
      | _ => Except.ok true
    else if mt = Mode.invoke ∧ statusEqInt status 202 = true then Except.ok true
    else okFall r
  else okFall r

end testpy

namespace gemtest

/-- The tail of `ok` in src/gemtest.py (lines 282-289): the marker scan
runs whenever `details` is a dict (even an empty one) and both its
outcomes return `False`. -/
def okFall (r : Record) : Except String Bool :=
  match pyGetS r "details" with
  | some (JsonVal.obj fs) =>
    match detailsMarker fs with
    | Except.error e => Except.error e
    | Except.ok _ => Except.ok false
  | _ => Except.ok false

/-- `ok` from src/gemtest.py (lines 245-289).  Its query-200 branch
checks the `err` key and scans the raw `result` string instead of the
details dict. -/
def ok (mt : Mode) (r : Record) (codes : Option (List Int)) : Except String Bool :=
  let expected := codes.getD (if mt = Mode.invoke then [202] else [200])
  let status := pyGetS r "status"
  if mt = Mode.invoke ∧ statusValidStr status = true then Except.ok true
  else if statusIntIn status expected = true then
    if mt = Mode.query ∧ statusEqInt status 200 = true then
      if optTruthy (pyGetS r "err") then Except.ok false
      else
        match pyGetS r "result" with
        | some (JsonVal.str s) =>
          if strContains s "Description: " || strContains (pyLower s) "chaincode response" then
            Except.ok false
          else Except.ok true
        | _ => Except.ok true
    else if mt = Mode.invoke ∧ statusEqInt status 202 = true then Except.ok true
    else okFall r
  else okFall r

end gemtest

example :
    testpy.ok Mode.invoke [(PyKey.str "status", JsonVal.str "VALID")] none = Except.ok true := by
  rfl
example :
    testpy.ok Mode.invoke [(PyKey.str "status", JsonVal.num 500)] none = Except.ok false := by
  rfl
example :
    testpy.ok Mode.query
      [(PyKey.str "status", JsonVal.num 200),
       (PyKey.str "details", JsonVal.obj [("error", JsonVal.str "Description: bad")])]
      none = Except.ok false := by
  rfl
example :
    gemtest.ok Mode.query
      [(PyKey.str "status", JsonVal.num 200),
       (PyKey.str "result", JsonVal.str "Error: Description: bad")]
      none = Except.ok false := by
  rfl

/-! ## Alias resolution and the invocation wrappers -/

/-- `ID_ROSTER`: Kaleido signing identifier → (chaincode alias, role).
Identical in both scripts (src/test.py:40-49, src/gemtest.py:41-50). -/
def ID_ROSTER : List (String × String × String) :=
  [("admin_main_tester", "MainAdminFT", "admin"),
   ("farmer_alice_tester", "AliceAcres", "farmer"),
   ("processor_bob_tester", "BobProcessing", "processor"),
   ("processor_charlie_tester", "CharlieTransform", "processor"),
   ("distributor_dave_tester", "DaveDistribution", "distributor"),
   ("retailer_eve_tester", "EveMart", "retailer"),
   ("certifier_frank_tester", "FrankCertify", "certifier"),
   ("auditor_grace_tester", "GraceAudits", "admin")]

/-- `get_kaleido_kid_for_alias` (src/test.py:146-151,
src/gemtest.py:149-154): first roster entry whose alias matches. -/
def get_kaleido_kid_for_alias (aname : String) : Option String :=
  (ID_ROSTER.find? (fun e => e.2.1 == aname)).map (fun e => e.1)

def CHANNEL_NAME : String := "default-channel"
def CHAINCODE_NAME : String := "banana"

mutual

/-- Python `repr` of a JSON-shaped value, as `str()` applies it to the
elements of containers. -/
def pyRepr : JsonVal → String
  | .null => "None"
  | .bool true => "True"
  | .bool false => "False"
  | .num n => toString n
  | .str s => String.singleton (Char.ofNat 39) ++ s ++ String.singleton (Char.ofNat 39)
  | .arr xs => "[" ++ pyReprList xs ++ "]"
  | .obj fs => "\x7b" ++ pyReprFields fs ++ "\x7d"

def pyReprList : List JsonVal → String
  | [] => ""
  | [x] => pyRepr x
  | x :: xs => pyRepr x ++ ", " ++ pyReprList xs

def pyReprFields : List (String × JsonVal) → String
  | [] => ""
  | [(k, v)] =>
    String.singleton (Char.ofNat 39) ++ k ++ String.singleton (Char.ofNat 39) ++ ": " ++ pyRepr v
  | (k, v) :: fs =>
    String.singleton (Char.ofNat 39) ++ k ++ String.singleton (Char.ofNat 39) ++ ": " ++ pyRepr v ++
      ", " ++ pyReprFields fs

end

/-- `str(arg) if not isinstance(arg, str) else arg`
(src/test.py:163, src/gemtest.py:159/192). -/
def coerceArg : JsonVal → String
  | .str s => s
  | .null => "None"
  | .bool true => "True"
  | .bool false => "False"
  | .num n => toString n
  | v => pyRepr v

/-- The transaction-submission envelope built by `invoke`
(src/test.py:170-175). -/
structure TxPayload where
  signer : String
  channel : String
  chaincode : String
  func : String
  args : List String
  strongread : Bool

/-- The query envelope built by `query` (src/test.py:203-207). -/
structure QueryEnvelope where
  signer : String
  channel : String
  chaincode : String
  func : String
  args : List String

/-- The fail-fast record for an unresolvable signer alias (the binder is named `aname` because `alias` is a reserved command)
(src/test.py:168/201, src/gemtest.py:164/197). -/
def missingSignerRecord (aname : String) : Record :=
  [(PyKey.str "err", JsonVal.str ("Signer alias " ++ aname ++ " not found in ID_ROSTER")),
   (PyKey.str "status", JsonVal.num 0)]

/-- What `query` hands back: either the unwrapped result payload or the
full normalized record. -/
inductive QueryRet where
  | value (v : JsonVal)
  | record (r : Record)

/-- `processed_result` of `query` (src/test.py:210-232,
src/gemtest.py:206-237): on HTTP 200, a present non-null `result` is
unwrapped — an empty/whitespace string becomes `None`, another string
is JSON-parsed with fallback to the raw string, a non-string passes
through; otherwise `None`. -/
def queryProcessedResult (r : Record) : JsonVal :=
  if statusEqInt (pyGetS r "status") 200 = true then
    match pyGetS r "result" with
    | none => JsonVal.null
    | some JsonVal.null => JsonVal.null
    | some (JsonVal.str s) =>
      if pyStrip s = "" then JsonVal.null
      else
        match json_loads s with
        | some p => p
        | none => JsonVal.str s
    | some v => v
  else JsonVal.null

/-- Whether a value is Python `None`. -/
def isNull : JsonVal → Bool
  | .null => true
  | _ => false

/-- The return statement of `query` (src/test.py:236, src/gemtest.py:242):
`processed_result if (r.get("status") == 200 and processed_result is not None) else r`. -/
def queryPostprocess (r : Record) : QueryRet :=
  if statusEqInt (pyGetS r "status") 200 = true ∧ isNull (queryProcessedResult r) = false then
    QueryRet.value (queryProcessedResult r)
  else QueryRet.record r

namespace testpy

/-- The log-line classification inside `invoke` (src/test.py:178-190)
evaluates `error_message.lower()` when `details` is a truthy dict with
an `error` or `message` key; on a non-string that raises
`AttributeError`, which `invoke` does not catch.  Modelled for its
exception behaviour only. -/
def invokeLogProbe (r : Record) : Except String Unit :=
  match pyGetS r "details" with
  | some (JsonVal.obj fs) =>
    if !fs.isEmpty && (objHas fs "error" || objHas fs "message") then do
      let em := pyOr (objGetD fs "error" (JsonVal.str "")) (objGetD fs "message" (JsonVal.str ""))
      let _ ← pyLowerEx em
      pure ()
    else pure ()
  | _ => pure ()

/-- `invoke` (src/test.py:160-191), as a function of the transport layer
`net` (the `_req(CONNECT_URL, payload)` call).  An unresolvable alias
short-circuits to the synthetic record without touching `net`. -/
def invoke (net : TxPayload → Record) (aname func : String) (args : List JsonVal) :
    Except String Record :=
  let strArgs := args.map coerceArg
  match get_kaleido_kid_for_alias aname with
  | none => Except.ok (missingSignerRecord aname)
  | some kid =>
    if kid = "" then Except.ok (missingSignerRecord aname)
    else do
      let r := net ⟨kid, CHANNEL_NAME, CHAINCODE_NAME, func, strArgs, true⟩
      let _ ← invokeLogProbe r
      pure r

/-- `query` (src/test.py:193-236), as a function of the transport layer
`net` (the `_req(QUERY_URL, payload)` call). -/
def query (net : QueryEnvelope → Record) (aname func : String) (args : List JsonVal) : QueryRet :=
  let strArgs := args.map coerceArg
  match get_kaleido_kid_for_alias aname with
  | none => QueryRet.record (missingSignerRecord aname)
  | some kid =>
    if kid = "" then QueryRet.record (missingSignerRecord aname)
    else queryPostprocess (net ⟨kid, CHANNEL_NAME, CHAINCODE_NAME, func, strArgs⟩)

end testpy

namespace gemtest

/-- The log-line classification inside gemtest's `invoke`
(src/gemtest.py:173-186): same `.lower()` hazard, but the guard is
`isinstance(r.get("details"), dict)` without a truthiness test. -/
def invokeLogProbe (r : Record) : Except String Unit :=
  match pyGetS r "details" with
  | some (JsonVal.obj fs) =>
    if objHas fs "error" || objHas fs "message" then do
      let em := pyOr (objGetD fs "error" (JsonVal.str "")) (objGetD fs "message" (JsonVal.str ""))
      let _ ← pyLowerEx em
      pure ()
    else pure ()
  | _ => pure ()

/-- `invoke` (src/gemtest.py:156-187). -/
def invoke (net : TxPayload → Record) (aname func : String) (args : List JsonVal) :
    Except String Record :=
  let strArgs := args.map coerceArg
  match get_kaleido_kid_for_alias aname with
  | none => Except.ok (missingSignerRecord aname)
  | some kid =>
    if kid = "" then Except.ok (missingSignerRecord aname)
    else do
      let r := net ⟨kid, CHANNEL_NAME, CHAINCODE_NAME, func, strArgs, true⟩
      let _ ← invokeLogProbe r
      pure r

end gemtest

example : get_kaleido_kid_for_alias "AliceAcres" = some "farmer_alice_tester" := by rfl
example : get_kaleido_kid_for_alias "ghost_alias" = none := by rfl

/-! ## Support lemmas -/

theorem pyGet_pySet (r : Record) (k : PyKey) (v : JsonVal) (q : PyKey) :
    pyGet (pySet r k v) q = if k = q then some v else pyGet r q := by
  induction r with
  | nil => simp [pySet, pyGet]
  | cons hd tl ih =>
    obtain ⟨k', v'⟩ := hd
    by_cases hk : k' = k
    · subst hk
      simp only [pySet, if_pos rfl, pyGet]
      by_cases hq : k' = q <;> simp [hq]
    · simp only [pySet, if_neg hk, pyGet]
      by_cases hq : k' = q
      · subst hq
        have : ¬ k = k' := fun h => hk h.symm
        simp [pyGet, if_neg this]
      · simp [pyGet, if_neg hq, ih]

/-- Last binding of a key in a raw (possibly duplicated) field list:
the value the Python dict holds after assigning the fields in order. -/
def lookupLast : List (String × JsonVal) → String → Option JsonVal
  | [], _ => none
  | (k, v) :: rest, key =>
    match lookupLast rest key with
    | some w => some w
    | none => if k = key then some v else none

theorem pyGet_objFoldSet (fs : List (String × JsonVal)) (r : Record) (key : String) :
    pyGet (objFoldSet r fs) (PyKey.str key) =
      (match lookupLast fs key with
       | some w => some w
       | none => pyGet r (PyKey.str key)) := by
  induction fs generalizing r with
  | nil => simp [objFoldSet, lookupLast]
  | cons hd tl ih =>
    obtain ⟨k, v⟩ := hd
    have step : objFoldSet r ((k, v) :: tl) = objFoldSet (pySet r (PyKey.str k) v) tl := rfl
    rw [step, ih]
    cases h : lookupLast tl key with
    | some w => simp [lookupLast, h]
    | none =>
      simp only [lookupLast, h, pyGet_pySet]
      by_cases hk : k = key
      · subst hk
        simp
      · have : ¬ PyKey.str k = PyKey.str key := by
          simp [hk]
        simp [hk, this]

theorem detailsMarker_str (fs : List (String × JsonVal)) (em : String)
    (hem : pyOr (objGetD fs "error" (JsonVal.str "")) (objGetD fs "message" (JsonVal.str "")) =
      JsonVal.str em) :
    detailsMarker fs =
      Except.ok (strContains em "Description: " || strContains (pyLower em) "chaincode response") := by
  unfold detailsMarker
  rw [hem]
  cases h : strContains em "Description: " with
  | true =>
    simp only [pyInStr, h]
    rfl
  | false =>
    simp only [pyInStr, h]
    rfl

/-- A decoded body on which the merge step must raise: a bare scalar
(`None`, a boolean, a number) or a non-empty string. -/
def scalarNonMergeable : JsonVal → Bool
  | .null => true
  | .bool _ => true
  | .num _ => true
  | .str s => decide (s ≠ "")
  | _ => false

/-! ## Claim theorems -/

namespace testpy

/-- `ok` with the module-global `method_type` threaded as explicit
state: the source `ok` declares `global method_type` but only reads it,
so one call returns the verdict together with the unchanged global. -/
def okState (mt : Mode) (r : Record) (codes : Option (List Int)) :
    Except String Bool × Mode :=
  (ok mt r codes, mt)

end testpy

namespace gemtest

/-- State-threaded `ok` for src/gemtest.py, as in `testpy.okState`. -/
def okState (mt : Mode) (r : Record) (codes : Option (List Int)) :
    Except String Bool × Mode :=
  (ok mt r codes, mt)

end gemtest

/-- C1: in invoke mode, a record whose `status` is a string equal to
"VALID" up to letter case is classified PASS by both scripts' `ok`,
whatever the `expected_status_codes` override is. -/
theorem C1_invoke_valid_status_passes (r : Record) (codes : Option (List Int)) (s : String)
    (hs : pyGetS r "status" = some (JsonVal.str s)) (hv : pyUpper s = "VALID") :
    testpy.ok Mode.invoke r codes = Except.ok true ∧
    gemtest.ok Mode.invoke r codes = Except.ok true := by
  constructor
  · simp [testpy.ok, hs, statusValidStr, hv]
  · simp [gemtest.ok, hs, statusValidStr, hv]

/-- C1 witness: the record `{"status": "vAlId"}` with an override that
contains no matching code still passes in invoke mode. -/
theorem C1_witness :
    pyGetS [(PyKey.str "status", JsonVal.str "vAlId")] "status" = some (JsonVal.str "vAlId") ∧
    pyUpper "vAlId" = "VALID" ∧
    (testpy.ok Mode.invoke [(PyKey.str "status", JsonVal.str "vAlId")] (some [999]) = Except.ok true ∧
     gemtest.ok Mode.invoke [(PyKey.str "status", JsonVal.str "vAlId")] (some [999]) = Except.ok true) :=
  ⟨rfl, by decide,
   C1_invoke_valid_status_passes [(PyKey.str "status", JsonVal.str "vAlId")] (some [999]) "vAlId"
     rfl (by decide)⟩

/-- C2 counterexample: a 202 invoke record whose details carry the
"Description: " error marker is still classified PASS by both `ok`
implementations — the claim's second half demands FAIL here. -/
theorem C2_counterexample :
    testpy.ok Mode.invoke
      [(PyKey.str "status", JsonVal.num 202),
       (PyKey.str "details", JsonVal.obj [("error", JsonVal.str "Description: chaincode failed")])]
      none = Except.ok true ∧
    gemtest.ok Mode.invoke
      [(PyKey.str "status", JsonVal.num 202),
       (PyKey.str "details", JsonVal.obj [("error", JsonVal.str "Description: chaincode failed")])]
      none = Except.ok true :=
  ⟨rfl, rfl⟩

/-- C2 amended: in invoke mode with the default acceptable set, an
integer 202 status is classified PASS by both scripts' `ok` regardless
of the detail object's contents — the marker scan is reached only when
the status check fails. -/
theorem C2_amended_202_passes_regardless_of_details (r : Record)
    (hs : pyGetS r "status" = some (JsonVal.num 202)) :
    testpy.ok Mode.invoke r none = Except.ok true ∧
    gemtest.ok Mode.invoke r none = Except.ok true := by
  constructor
  · simp [testpy.ok, hs, statusValidStr, statusIntIn, statusEqInt]
  · simp [gemtest.ok, hs, statusValidStr, statusIntIn, statusEqInt]

/-- C2 witness: the amended theorem applied to the marker-laden 202
record of the counterexample's shape. -/
theorem C2_witness :
    pyGetS [(PyKey.str "status", JsonVal.num 202),
            (PyKey.str "details", JsonVal.obj [("error", JsonVal.str "Description: boom")])]
        "status" = some (JsonVal.num 202) ∧
    (testpy.ok Mode.invoke
        [(PyKey.str "status", JsonVal.num 202),
         (PyKey.str "details", JsonVal.obj [("error", JsonVal.str "Description: boom")])]
        none = Except.ok true ∧
     gemtest.ok Mode.invoke
        [(PyKey.str "status", JsonVal.num 202),
         (PyKey.str "details", JsonVal.obj [("error", JsonVal.str "Description: boom")])]
        none = Except.ok true) :=
  ⟨rfl,
   C2_amended_202_passes_regardless_of_details
     [(PyKey.str "status", JsonVal.num 202),
      (PyKey.str "details", JsonVal.obj [("error", JsonVal.str "Description: boom")])]
     rfl⟩

/-- C5: any exception other than `HTTPError` makes `_req` return the
500-sentinel record carrying `str(exc)` under `err`; no exception
crosses `_req`'s boundary (the model is total). -/
theorem C5_transport_failure_sentinel (exc : String) :
    _req (HttpOutcome.failure exc) =
      [(PyKey.str "err", JsonVal.str exc), (PyKey.str "status", JsonVal.num 500)] ∧
    pyGetS (_req (HttpOutcome.failure exc)) "status" = some (JsonVal.num 500) ∧
    pyGetS (_req (HttpOutcome.failure exc)) "err" = some (JsonVal.str exc) := by
  refine ⟨rfl, ?_, ?_⟩ <;> simp [_req, pyGetS, pyGet]

/-- C9: both classifiers are pure in the record, mode and override:
the call leaves the threaded `method_type` state unchanged, and a
second call on the same inputs returns the same verdict. -/
theorem C9_ok_idempotent (mt : Mode) (r : Record) (codes : Option (List Int)) :
    (testpy.okState mt r codes).2 = mt ∧
    testpy.okState (testpy.okState mt r codes).2 r codes = testpy.okState mt r codes ∧
    (gemtest.okState mt r codes).2 = mt ∧
    gemtest.okState (gemtest.okState mt r codes).2 r codes = gemtest.okState mt r codes :=
  ⟨rfl, rfl, rfl, rfl⟩

/-- C3 counterexample: a query-mode HTTP-200 record whose details carry
the "transaction returned with failure" marker is classified PASS by
both `ok` implementations — the claim demands an override to FAIL for
this marker. -/
theorem C3_counterexample :
    testpy.ok Mode.query
      [(PyKey.str "status", JsonVal.num 200),
       (PyKey.str "details",
        JsonVal.obj [("error", JsonVal.str "transaction returned with failure: x")])]
      none = Except.ok true ∧
    gemtest.ok Mode.query
      [(PyKey.str "status", JsonVal.num 200),
       (PyKey.str "details",
        JsonVal.obj [("error", JsonVal.str "transaction returned with failure: x")])]
      none = Except.ok true :=
  ⟨rfl, rfl⟩

/-- C3 amended: for query-mode records with HTTP 200 in the default
acceptable set, src/test.py's `ok` — whenever the details value is a
truthy dict whose `error`-or-`message` extraction yields a string —
returns FAIL exactly when that string contains "Description: "
(case-sensitive) or "chaincode response" (case-insensitive); in
particular "transaction returned with failure" does not trigger the
override, and the verdict is unchanged by writing any value into the
record's `result` field (the decoded result string is never scanned).
src/gemtest.py's `ok` instead returns FAIL exactly when the `err` field
is truthy or the `result` value is a string containing "Description: "
or, lowercased, "chaincode response". -/
theorem C3_amended_query200_marker_scan (r : Record) :
    (∀ (fs : List (String × JsonVal)) (em : String),
      pyGetS r "status" = some (JsonVal.num 200) →
      pyGetS r "details" = some (JsonVal.obj fs) →
      fs.isEmpty = false →
      pyOr (objGetD fs "error" (JsonVal.str "")) (objGetD fs "message" (JsonVal.str "")) =
        JsonVal.str em →
      (testpy.ok Mode.query r none =
        Except.ok (!(strContains em "Description: " || strContains (pyLower em) "chaincode response")) ∧
       ∀ (w : JsonVal),
         testpy.ok Mode.query (pySet r (PyKey.str "result") w) none =
           testpy.ok Mode.query r none)) ∧
    (pyGetS r "status" = some (JsonVal.num 200) →
      gemtest.ok Mode.query r none =
        Except.ok
          (if optTruthy (pyGetS r "err") = true then false
           else
             match pyGetS r "result" with
             | some (JsonVal.str s) =>
               !(strContains s "Description: " || strContains (pyLower s) "chaincode response")
             | _ => true)) := by
  constructor
  · intro fs em hs hd hne hem
    have char : ∀ (q : Record),
        pyGetS q "status" = some (JsonVal.num 200) →
        pyGetS q "details" = some (JsonVal.obj fs) →
        testpy.ok Mode.query q none =
          Except.ok
            (!(strContains em "Description: " || strContains (pyLower em) "chaincode response")) := by
      intro q hs' hd'
      cases hmk : (strContains em "Description: " || strContains (pyLower em) "chaincode response") with
      | true =>
        simp [testpy.ok, hs', hd', hne, statusValidStr, statusIntIn, statusEqInt,
          detailsMarker_str fs em hem, hmk]
      | false =>
        simp [testpy.ok, hs', hd', hne, statusValidStr, statusIntIn, statusEqInt,
          detailsMarker_str fs em hem, hmk]
    refine ⟨char r hs hd, ?_⟩
    intro w
    have hs2 : pyGetS (pySet r (PyKey.str "result") w) "status" = some (JsonVal.num 200) := by
      unfold pyGetS
      rw [pyGet_pySet]
      simpa using hs
    have hd2 : pyGetS (pySet r (PyKey.str "result") w) "details" = some (JsonVal.obj fs) := by
      unfold pyGetS
      rw [pyGet_pySet]
      simpa using hd
    rw [char _ hs2 hd2, char r hs hd]
  · intro hs
    by_cases he : optTruthy (pyGetS r "err") = true
    · simp [gemtest.ok, hs, he, statusValidStr, statusIntIn, statusEqInt]
    · cases hrv : pyGetS r "result" with
      | none =>
        simp [gemtest.ok, hs, he, hrv, statusValidStr, statusIntIn, statusEqInt]
      | some v =>
        cases v with
        | str s =>
          cases hmk : (strContains s "Description: " || strContains (pyLower s) "chaincode response") with
          | true =>
            simp [gemtest.ok, hs, he, hrv, hmk, statusValidStr, statusIntIn, statusEqInt]
          | false =>
            simp [gemtest.ok, hs, he, hrv, hmk, statusValidStr, statusIntIn, statusEqInt]
        | null => simp [gemtest.ok, hs, he, hrv, statusValidStr, statusIntIn, statusEqInt]
        | bool b => simp [gemtest.ok, hs, he, hrv, statusValidStr, statusIntIn, statusEqInt]
        | num n => simp [gemtest.ok, hs, he, hrv, statusValidStr, statusIntIn, statusEqInt]
        | arr xs => simp [gemtest.ok, hs, he, hrv, statusValidStr, statusIntIn, statusEqInt]
        | obj gs => simp [gemtest.ok, hs, he, hrv, statusValidStr, statusIntIn, statusEqInt]

/-- C3 witness: a 200 query record whose details `error` is
"Error: Description: denied" is failed by test.py's classifier, the
verdict is unchanged after planting a benign `result` string, and
gemtest's classifier fails a 200 record whose raw `result` string
carries the lowercased "chaincode response" marker. -/
theorem C3_witness :
    pyGetS [(PyKey.str "status", JsonVal.num 200),
            (PyKey.str "details", JsonVal.obj [("error", JsonVal.str "Error: Description: denied")])]
        "status" = some (JsonVal.num 200) ∧
    testpy.ok Mode.query
      [(PyKey.str "status", JsonVal.num 200),
       (PyKey.str "details", JsonVal.obj [("error", JsonVal.str "Error: Description: denied")])]
      none = Except.ok false ∧
    testpy.ok Mode.query
      (pySet
        [(PyKey.str "status", JsonVal.num 200),
         (PyKey.str "details", JsonVal.obj [("error", JsonVal.str "Error: Description: denied")])]
        (PyKey.str "result") (JsonVal.str "all fine")) none =
      testpy.ok Mode.query
        [(PyKey.str "status", JsonVal.num 200),
         (PyKey.str "details", JsonVal.obj [("error", JsonVal.str "Error: Description: denied")])]
        none ∧
    gemtest.ok Mode.query
      [(PyKey.str "status", JsonVal.num 200),
       (PyKey.str "result", JsonVal.str "Chaincode Response: failure")]
      none = Except.ok false :=
  ⟨rfl,
   (((C3_amended_query200_marker_scan
        [(PyKey.str "status", JsonVal.num 200),
         (PyKey.str "details", JsonVal.obj [("error", JsonVal.str "Error: Description: denied")])]).1
      [("error", JsonVal.str "Error: Description: denied")] "Error: Description: denied"
      rfl rfl rfl rfl).1).trans (by rfl),
   ((C3_amended_query200_marker_scan
        [(PyKey.str "status", JsonVal.num 200),
         (PyKey.str "details", JsonVal.obj [("error", JsonVal.str "Error: Description: denied")])]).1
      [("error", JsonVal.str "Error: Description: denied")] "Error: Description: denied"
      rfl rfl rfl rfl).2 (JsonVal.str "all fine"),
   (((C3_amended_query200_marker_scan
        [(PyKey.str "status", JsonVal.num 200),
         (PyKey.str "result", JsonVal.str "Chaincode Response: failure")]).2) rfl).trans (by rfl)⟩

/-- C4 counterexample: on HTTP 200 with a whitespace-only `result`
string, `query`'s unwrapping does produce the absent value `None`, but
the wrapper then returns the full normalized record `r`, not an
absent-value indicator — the claim asserts the opposite for the return
value. -/
theorem C4_counterexample :
    queryProcessedResult
        [(PyKey.str "status", JsonVal.num 200), (PyKey.str "result", JsonVal.str "   ")] =
      JsonVal.null ∧
    queryPostprocess
        [(PyKey.str "status", JsonVal.num 200), (PyKey.str "result", JsonVal.str "   ")] =
      QueryRet.record
        [(PyKey.str "status", JsonVal.num 200), (PyKey.str "result", JsonVal.str "   ")] :=
  ⟨rfl, rfl⟩

/-- C4 amended: on HTTP 200 with an empty or whitespace-only `result`
string (and no details object), the string decodes to the absent value
`None`, src/test.py's classifier returns PASS, and the `query` wrapper
returns the full normalized record rather than the absent value. -/
theorem C4_amended_empty_result (r : Record) (s : String)
    (hs : pyGetS r "status" = some (JsonVal.num 200))
    (hr : pyGetS r "result" = some (JsonVal.str s))
    (hws : pyStrip s = "")
    (hd : pyGetS r "details" = none) :
    queryProcessedResult r = JsonVal.null ∧
    queryPostprocess r = QueryRet.record r ∧
    testpy.ok Mode.query r none = Except.ok true := by
  have hp : queryProcessedResult r = JsonVal.null := by
    simp [queryProcessedResult, hs, hr, hws, statusEqInt]
  refine ⟨hp, ?_, ?_⟩
  · simp [queryPostprocess, hp, isNull]
  · simp [testpy.ok, hs, hd, statusValidStr, statusIntIn, statusEqInt]

/-- C4 witness: the amended theorem applied to the concrete record
`{"status": 200, "result": "   "}`. -/
theorem C4_witness :
    pyStrip "   " = "" ∧
    (queryProcessedResult
        [(PyKey.str "status", JsonVal.num 200), (PyKey.str "result", JsonVal.str "   ")] =
      JsonVal.null ∧
     queryPostprocess
        [(PyKey.str "status", JsonVal.num 200), (PyKey.str "result", JsonVal.str "   ")] =
      QueryRet.record
        [(PyKey.str "status", JsonVal.num 200), (PyKey.str "result", JsonVal.str "   ")] ∧
     testpy.ok Mode.query
        [(PyKey.str "status", JsonVal.num 200), (PyKey.str "result", JsonVal.str "   ")] none =
      Except.ok true) :=
  ⟨by decide,
   C4_amended_empty_result
     [(PyKey.str "status", JsonVal.num 200), (PyKey.str "result", JsonVal.str "   ")]
     "   " rfl rfl (by decide) rfl⟩

/-- C6 counterexample: "[1, 2]" is a JSON document, but because it
contains no brace `_req` skips parsing and stores the raw text plus a
note under `details` instead of the parsed body. -/
theorem C6_counterexample :
    json_loads "[1, 2]" = some (JsonVal.arr [JsonVal.num 1, JsonVal.num 2]) ∧
    _req (HttpOutcome.httpError 400 "[1, 2]") =
      [(PyKey.str "err", JsonVal.str "HTTP 400"),
       (PyKey.str "details",
        JsonVal.obj [("raw", JsonVal.str "[1, 2]"),
          ("note", JsonVal.str "Response not valid JSON or HTML.")]),
       (PyKey.str "status", JsonVal.num 400)] :=
  ⟨rfl, rfl⟩

/-- C6 amended: an HTTP error body is parsed under `details` only when
it is non-empty, contains a brace and does not contain "<html";
otherwise — and also whenever parsing fails — `details` is the raw
text together with a note, and no parse exception escapes. -/
theorem C6_amended_error_body_details (code : Int) (raw : String) :
    (∀ v, raw ≠ "" → strContains raw "<html" = false → strContains raw "\x7b" = true →
      json_loads raw = some v →
      _req (HttpOutcome.httpError code raw) =
        [(PyKey.str "err", JsonVal.str ("HTTP " ++ toString code)),
         (PyKey.str "details", v),
         (PyKey.str "status", JsonVal.num code)]) ∧
    (json_loads raw = none →
      _req (HttpOutcome.httpError code raw) =
        [(PyKey.str "err", JsonVal.str ("HTTP " ++ toString code)),
         (PyKey.str "details",
          JsonVal.obj [("raw", JsonVal.str raw),
            ("note", JsonVal.str
              (if raw ≠ "" ∧ strContains raw "<html" = false ∧ strContains raw "\x7b" = true
               then "Response could not be parsed as JSON."
               else "Response not valid JSON or HTML."))]),
         (PyKey.str "status", JsonVal.num code)]) := by
  constructor
  · intro v h1 h2 h3 h4
    simp [_req, h1, h2, h3, h4]
  · intro h4
    by_cases hc : raw ≠ "" ∧ strContains raw "<html" = false ∧ strContains raw "\x7b" = true
    · simp [_req, hc, h4]
    · simp [_req, hc]

/-- C6 witness: a braced JSON error body is parsed under `details`; an
HTML error page falls back to raw text plus a note. -/
theorem C6_witness :
    json_loads "\x7b\"error\": \"boom\"\x7d" = some (JsonVal.obj [("error", JsonVal.str "boom")]) ∧
    _req (HttpOutcome.httpError 500 "\x7b\"error\": \"boom\"\x7d") =
      [(PyKey.str "err", JsonVal.str "HTTP 500"),
       (PyKey.str "details", JsonVal.obj [("error", JsonVal.str "boom")]),
       (PyKey.str "status", JsonVal.num 500)] ∧
    _req (HttpOutcome.httpError 502 "<html><body>Bad Gateway</body></html>") =
      [(PyKey.str "err", JsonVal.str "HTTP 502"),
       (PyKey.str "details",
        JsonVal.obj [("raw", JsonVal.str "<html><body>Bad Gateway</body></html>"),
          ("note", JsonVal.str "Response not valid JSON or HTML.")]),
       (PyKey.str "status", JsonVal.num 502)] := by
  refine ⟨rfl, ?_, ?_⟩
  · exact (C6_amended_error_body_details 500 "\x7b\"error\": \"boom\"\x7d").1
      (JsonVal.obj [("error", JsonVal.str "boom")]) (by decide) (by decide) (by decide) rfl
  · exact ((C6_amended_error_body_details 502 "<html><body>Bad Gateway</body></html>").2
      rfl).trans (by rfl)

/-- C7 counterexample: a 200 response whose body itself carries a
`status` field — exactly how the gateway reports a committed
transaction — ends up with `status = "VALID"`, not the HTTP response
code 200, because the merge overwrites the field. -/
theorem C7_counterexample :
    json_loads "\x7b\"status\": \"VALID\"\x7d" =
      some (JsonVal.obj [("status", JsonVal.str "VALID")]) ∧
    _req (HttpOutcome.success 200 "\x7b\"status\": \"VALID\"\x7d") =
      [(PyKey.str "status", JsonVal.str "VALID")] ∧
    pyGetS (_req (HttpOutcome.success 200 "\x7b\"status\": \"VALID\"\x7d")) "status" =
      some (JsonVal.str "VALID") :=
  ⟨rfl, rfl, rfl⟩

/-- C7 amended: on HTTP success the record starts as
`{"status": code}`; a body decoding to an object is merged field-wise
on top (so a decoded `status` field overrides the HTTP code, and every
other key reads back as its last decoded value); a non-empty body that
fails to decode is kept verbatim under `raw`; an empty body leaves the
bare status record. -/
theorem C7_amended_success_merge (code : Int) (body : String) :
    (∀ fs key, body ≠ "" → json_loads body = some (JsonVal.obj fs) →
      pyGetS (_req (HttpOutcome.success code body)) key =
        (match lookupLast fs key with
         | some w => some w
         | none => if key = "status" then some (JsonVal.num code) else none)) ∧
    (body ≠ "" → json_loads body = none →
      _req (HttpOutcome.success code body) =
        [(PyKey.str "status", JsonVal.num code), (PyKey.str "raw", JsonVal.str body)]) ∧
    (body = "" →
      _req (HttpOutcome.success code body) = [(PyKey.str "status", JsonVal.num code)]) := by
  refine ⟨?_, ?_, ?_⟩
  · intro fs key h1 h2
    simp only [_req, if_neg h1, h2, dictUpdate]
    rw [pyGetS, pyGet_objFoldSet]
    cases lookupLast fs key with
    | some w => rfl
    | none =>
      by_cases hk : key = "status"
      · subst hk
        simp [pyGet]
      · have hk' : "status" ≠ key := fun h => hk h.symm
        simp [pyGet, hk, hk']
  · intro h1 h2
    simp only [_req, if_neg h1, h2]
    rfl
  · intro h1
    simp [_req, h1]

/-- C7 witness: merged fields read back, a missing `status` key keeps
the HTTP code, and an undecodable body is stored under `raw`. -/
theorem C7_witness :
    json_loads "\x7b\"a\": 1\x7d" = some (JsonVal.obj [("a", JsonVal.num 1)]) ∧
    pyGetS (_req (HttpOutcome.success 200 "\x7b\"a\": 1\x7d")) "a" = some (JsonVal.num 1) ∧
    pyGetS (_req (HttpOutcome.success 200 "\x7b\"a\": 1\x7d")) "status" = some (JsonVal.num 200) ∧
    _req (HttpOutcome.success 200 "nope") =
      [(PyKey.str "status", JsonVal.num 200), (PyKey.str "raw", JsonVal.str "nope")] := by
  refine ⟨rfl, ?_, ?_, ?_⟩
  · exact ((C7_amended_success_merge 200 "\x7b\"a\": 1\x7d").1 [("a", JsonVal.num 1)] "a"
      (by decide) rfl).trans (by rfl)
  · exact ((C7_amended_success_merge 200 "\x7b\"a\": 1\x7d").1 [("a", JsonVal.num 1)] "status"
      (by decide) rfl).trans (by rfl)
  · exact (C7_amended_success_merge 200 "nope").2.1 (by decide) rfl

/-- C8: a mutating or read-only call whose signer alias is absent from
`ID_ROSTER` returns the synthetic `{status: 0, err: ...}` record, and
the result does not depend on the transport function — no network call
is made. -/
theorem C8_unresolved_alias_failfast (aname fn : String) (args : List JsonVal)
    (netT netT' netG netG' : TxPayload → Record) (netQ netQ' : QueryEnvelope → Record)
    (h : get_kaleido_kid_for_alias aname = none) :
    testpy.invoke netT aname fn args = Except.ok (missingSignerRecord aname) ∧
    testpy.invoke netT aname fn args = testpy.invoke netT' aname fn args ∧
    testpy.query netQ aname fn args = QueryRet.record (missingSignerRecord aname) ∧
    testpy.query netQ aname fn args = testpy.query netQ' aname fn args ∧
    gemtest.invoke netG aname fn args = Except.ok (missingSignerRecord aname) ∧
    gemtest.invoke netG aname fn args = gemtest.invoke netG' aname fn args := by
  refine ⟨?_, ?_, ?_, ?_, ?_, ?_⟩ <;>
    simp [testpy.invoke, testpy.query, gemtest.invoke, h]

/-- C8 witness: the alias "ghost_alias" does not resolve, and both
wrappers return exactly
`{"err": "Signer alias ghost_alias not found in ID_ROSTER", "status": 0}`. -/
theorem C8_witness :
    get_kaleido_kid_for_alias "ghost_alias" = none ∧
    testpy.invoke (fun _ => []) "ghost_alias" "CreateShipment" [] =
      Except.ok (missingSignerRecord "ghost_alias") ∧
    testpy.query (fun _ => []) "ghost_alias" "GetShipmentPublicDetails" [] =
      QueryRet.record (missingSignerRecord "ghost_alias") ∧
    missingSignerRecord "ghost_alias" =
      [(PyKey.str "err", JsonVal.str "Signer alias ghost_alias not found in ID_ROSTER"),
       (PyKey.str "status", JsonVal.num 0)] :=
  ⟨rfl,
   (C8_unresolved_alias_failfast "ghost_alias" "CreateShipment" [] (fun _ => []) (fun _ => [])
      (fun _ => []) (fun _ => []) (fun _ => []) (fun _ => []) rfl).1,
   (C8_unresolved_alias_failfast "ghost_alias" "GetShipmentPublicDetails" [] (fun _ => [])
      (fun _ => []) (fun _ => []) (fun _ => []) (fun _ => []) (fun _ => []) rfl).2.2.1,
   by simp [missingSignerRecord]⟩

/-- C10 counterexample: the body `[["k", "v"]]` is valid JSON and not a
JSON object, yet `dict.update` accepts it as a sequence of pairs: `_req`
returns a success record with status 200 and the merged key, not the
500-sentinel record the claim demands for every non-object body. -/
theorem C10_counterexample :
    json_loads "[[\"k\", \"v\"]]" =
      some (JsonVal.arr [JsonVal.arr [JsonVal.str "k", JsonVal.str "v"]]) ∧
    _req (HttpOutcome.success 200 "[[\"k\", \"v\"]]") =
      [(PyKey.str "status", JsonVal.num 200), (PyKey.str "k", JsonVal.str "v")] ∧
    pyGetS (_req (HttpOutcome.success 200 "[[\"k\", \"v\"]]")) "status" =
      some (JsonVal.num 200) :=
  ⟨rfl, rfl, rfl⟩

/-- C10 amended: when a non-empty success body decodes to a bare
scalar or a non-empty string, `out.update(...)` raises, the generic
handler catches it, and `_req` returns a 500-sentinel record instead
of a success record (arrays shaped as pair sequences instead merge
successfully, see the counterexample). -/
theorem C10_amended_scalar_body_sentinel (code : Int) (body : String) (v : JsonVal)
    (h1 : body ≠ "") (h2 : json_loads body = some v) (h3 : scalarNonMergeable v = true) :
    ∃ m, _req (HttpOutcome.success code body) =
      [(PyKey.str "err", JsonVal.str m), (PyKey.str "status", JsonVal.num 500)] := by
  simp only [_req, if_neg h1, h2]
  cases v with
  | null => exact ⟨_, rfl⟩
  | bool b => exact ⟨_, rfl⟩
  | num n => exact ⟨_, rfl⟩
  | str s =>
    have hs : s ≠ "" := by simpa [scalarNonMergeable] using h3
    simp only [dictUpdate, if_neg hs]
    exact ⟨_, rfl⟩
  | arr xs => simp [scalarNonMergeable] at h3
  | obj fs => simp [scalarNonMergeable] at h3

/-- C10 witness: the scalar body "5" produces the 500-sentinel record. -/
theorem C10_witness :
    json_loads "5" = some (JsonVal.num 5) ∧
    (∃ m, _req (HttpOutcome.success 200 "5") =
      [(PyKey.str "err", JsonVal.str m), (PyKey.str "status", JsonVal.num 500)]) :=
  ⟨rfl, C10_amended_scalar_body_sentinel 200 "5" (JsonVal.num 5) (by decide) rfl rfl⟩
